import Mathlib

/-!
Shallow embedding of the rate-limiting and counter-update subsystem of the
community board server (`src/community_server/server.js`).

The file concatenates two server variants.  The file-backed variant holds the
subsystem the specification describes:

* `PATCH /api/posts/:id/views`  (lines 799-835) — rate-limited view counter,
  backed by the nested `viewRateLimitMap : Map userKey (Map postId timestamp)`;
* `PATCH /api/posts/:id/likes`  (lines 854-897) — toggle like ledger, backed by
  `likesRateLimitMap : Map user timestamp`;

and the MySQL variant additionally provides

* `POST /api/posts/:id/like` (lines 577-616) — toggle over the `post_likes`
  table, which carries a `UNIQUE KEY (post_id, userId)` constraint;
* `POST /api/posts/:id/views` (lines 529-566) — view counting over the
  `post_views` table, whose `post_id` column carries a
  `FOREIGN KEY REFERENCES posts(id)` constraint; the handler has no 404
  path, and a missing post surfaces as the catch-block 500 when the
  constrained INSERT fails.

JavaScript `Map.get`/`Map.set` are embedded as association-list `lookup` /
`setKey` (update-in-place-or-append, matching `Map.set`).  Timestamps are
`Int` (`Date.now()` arithmetic on numbers; the magnitudes involved never reach
the limits of JS number precision, so `Int` subtraction is exact).  JavaScript
truthiness on numbers is modelled explicitly: `0` is falsy, every other integer
is truthy.  A post's `views` field is `Option Int` because the seeded default
post is created without a `views` field and the code reads it as
`(post.views || 0)`.
-/

namespace Community

/-- JS `Map.get k` on an association list. -/
def lookup {α : Type} : List (String × α) → String → Option α
  | [], _ => none
  | (k', v) :: rest, k => if k' = k then some v else lookup rest k

/-- JS `Map.set k v`: overwrite the entry for `k` in place if present,
otherwise append it. -/
def setKey {α : Type} : List (String × α) → String → α → List (String × α)
  | [], k, v => [(k, v)]
  | (k', v') :: rest, k, v =>
      if k' = k then (k, v) :: rest else (k', v') :: setKey rest k v

/-- The idiom `if (!m.has(k)) m.set(k, d)` used by both endpoints before
reading the rate map: insert a default entry when the key is absent. -/
def ensureKey {α : Type} (m : List (String × α)) (k : String) (d : α) :
    List (String × α) :=
  if (lookup m k).isSome then m else setKey m k d

/-- The fields of a stored post that the counter subsystem reads or writes.
The remaining fields (`title`, `content`, `author`, `createdAt`, `comments`,
`commentsCount`) are never touched by the two endpoints modelled here. -/
structure Post where
  id : String
  likes : Int
  usersLikes : List String
  views : Option Int
deriving Repr, DecidableEq

/-- `findPostById` of the file-backed server: the first post whose `id`
matches (`posts.findIndex(post => post.id === id)` followed by the index
read; `null` becomes `none`). -/
def findPostById : List Post → String → Option Post
  | [], _ => none
  | p :: ps, id => if p.id = id then some p else findPostById ps id

/-- `posts[postIndex] = post`: replace the first post whose `id` matches
(the index produced by `findIndex`). -/
def setPostById : List Post → String → Post → List Post
  | [], _, _ => []
  | q :: qs, id, p => if q.id = id then p :: qs else q :: setPostById qs id p

/-- `LIMIT_DURATION` of `PATCH /api/posts/:id/views`: `5 * 60 * 1000` ms. -/
def VIEW_LIMIT : Int := 5 * 60 * 1000

/-- `LIMIT_DURATION` of `PATCH /api/posts/:id/likes`: `1 * 60 * 1000` ms. -/
def LIKE_LIMIT : Int := 1 * 60 * 1000

/-- Per-user inner map of `viewRateLimitMap`: post id ↦ last view timestamp. -/
abbrev UserViews := List (String × Int)

/-- `viewRateLimitMap`: user key ↦ per-post last-view timestamps. -/
abbrev ViewMap := List (String × UserViews)

/-- `likesRateLimitMap`: user ↦ last like-toggle timestamp. -/
abbrev LikesMap := List (String × Int)

/-- Outcome of `PATCH /api/posts/:id/views`: 404, 429, or 200 carrying the
updated post (`res.json({ success: true, data: post })`). -/
inductive ViewResult where
  | notFound
  | limited
  | ok (post : Post)
deriving Repr, DecidableEq

/-- Mutable state the views endpoint touches: the posts file and the
process-wide `viewRateLimitMap`. -/
structure ViewState where
  posts : List Post
  viewRateLimitMap : ViewMap
deriving Repr, DecidableEq

/-- The guard `lastViewTime && now - lastViewTime < LIMIT_DURATION`:
an absent entry is falsy, and so is a stored timestamp of exactly `0`. -/
def viewSuppressed (lastViewTime : Option Int) (now : Int) : Bool :=
  match lastViewTime with
  | none => false
  | some t => t ≠ 0 && now - t < VIEW_LIMIT

/-- `PATCH /api/posts/:id/views` (file-backed variant, lines 799-835).
Order of operations, as in the source: find the post (404 on failure,
before any map access); ensure the outer map has an inner map for
`userKey`; read `lastViewTime`; if the suppression guard fires, return 429
with no further mutation; otherwise set `post.views = (post.views || 0) + 1`,
store the post back, and record `now` in the inner map. -/
def registerView (s : ViewState) (id userKey : String) (now : Int) :
    ViewResult × ViewState :=
  match findPostById s.posts id with
  | none => (.notFound, s)
  | some post =>
    let vm := ensureKey s.viewRateLimitMap userKey []
    let userViews := (lookup vm userKey).getD []
    let lastViewTime := lookup userViews id
    if viewSuppressed lastViewTime now then
      (.limited, { s with viewRateLimitMap := vm })
    else
      let post' := { post with views := some (post.views.getD 0 + 1) }
      let posts' := setPostById s.posts id post'
      let vm' := setKey vm userKey (setKey userViews id now)
      (.ok post', { posts := posts', viewRateLimitMap := vm' })

/-- Outcome of `PATCH /api/posts/:id/likes`: 400, 429, 404, or 200 carrying
`post.likes` (`res.json({ success: true, likes: post.likes })`). -/
inductive LikeResult where
  | badRequest
  | throttled
  | notFound
  | ok (likes : Int)
deriving Repr, DecidableEq

/-- Mutable state the likes endpoint touches: the posts file and the
process-wide `likesRateLimitMap`. -/
structure LikeState where
  posts : List Post
  likesRateLimitMap : LikesMap
deriving Repr, DecidableEq

/-- The toggle step on one post: `usersLikes.includes(user)` decides between
removing the user (`likes -= 1`, `filter(n => n !== user)`) and adding the
user (`likes += 1`, `push(user)`). -/
def togglePost (post : Post) (user : String) : Post :=
  if post.usersLikes.contains user then
    { post with likes := post.likes - 1,
                usersLikes := post.usersLikes.filter (fun n => n ≠ user) }
  else
    { post with likes := post.likes + 1,
                usersLikes := post.usersLikes ++ [user] }

/-- `PATCH /api/posts/:id/likes` (file-backed variant, lines 854-897).
Order of checks, as in the source: `!user` → 400; initialise the rate map
entry to `0` when absent; `now - lastRequestTime < LIMIT_DURATION` → 429;
`!post` → 404 (only after the throttle check); otherwise toggle, record
`now` for the user, store the post back, and return the new like count.
A missing `req.body.author` is modelled as the empty string (both are falsy). -/
def toggleLike (s : LikeState) (id user : String) (now : Int) :
    LikeResult × LikeState :=
  let post? := findPostById s.posts id
  if user = "" then (.badRequest, s)
  else
    let lm := ensureKey s.likesRateLimitMap user 0
    let lastRequestTime := (lookup lm user).getD 0
    if now - lastRequestTime < LIKE_LIMIT then
      (.throttled, { s with likesRateLimitMap := lm })
    else
      match post? with
      | none => (.notFound, { s with likesRateLimitMap := lm })
      | some post =>
        let post' := togglePost post user
        (.ok post'.likes,
         { posts := setPostById s.posts id post',
           likesRateLimitMap := setKey lm user now })

/-- The last-action timestamp the throttle decision actually uses: a missing
map entry is read as `0` (the endpoint writes `0` for absent users before
reading). -/
def lastActionTs (lm : LikesMap) (user : String) : Int :=
  (lookup lm user).getD 0

/-- The recorded last-view timestamp for an (identity, resource) pair in the
nested `viewRateLimitMap`. -/
def lastViewTs (vm : ViewMap) (userKey id : String) : Option Int :=
  match lookup vm userKey with
  | none => none
  | some userViews => lookup userViews id

/-- A row of the MySQL `post_likes` table, projected to the columns the
endpoint reads: `(post_id, userId)`.  The table carries
`UNIQUE KEY unique_like (post_id, userId)`. -/
abbrev LikeRow := Int × String

/-- Row match used by `POST /api/posts/:id/like`:
`WHERE post_id = ? AND userId = ?`. -/
def rowMatch (postId : Int) (userId : String) (r : LikeRow) : Bool :=
  r.1 = postId && r.2 = userId

/-- `POST /api/posts/:id/like` (MySQL variant, lines 577-616), as a pure
function of the `post_likes` table.  Select the existing rows for the pair;
if any, delete them all, else insert one row; then `COUNT(*)` for the post
on the resulting table.  Returns `(isLiked, likeCount)` where
`isLiked = !existingLike.length`, plus the new table. -/
def sqlToggleLike (rows : List LikeRow) (postId : Int) (userId : String) :
    (Bool × Nat) × List LikeRow :=
  let existingLike := rows.filter (rowMatch postId userId)
  let rows' :=
    if existingLike.isEmpty then rows ++ [(postId, userId)]
    else rows.filter (fun r => !rowMatch postId userId r)
  let likeCount := (rows'.filter (fun r : LikeRow => r.1 = postId)).length
  ((existingLike.isEmpty, likeCount), rows')

/-- A row of the MySQL `posts` table, projected to the columns the views
endpoint reads: `id` and the `hits` counter. -/
structure SqlPost where
  id : Int
  hits : Int
deriving Repr, DecidableEq

/-- A row of the MySQL `post_views` table, projected to the columns the
endpoint reads: `(post_id, userId, createdAt)`.  The `post_id` column
carries `FOREIGN KEY (post_id) REFERENCES posts(id)`. -/
structure ViewRow where
  postId : Int
  userId : String
  createdAt : Int
deriving Repr, DecidableEq

/-- Tables the MySQL views endpoint touches. -/
structure SqlViewState where
  posts : List SqlPost
  postViews : List ViewRow
deriving Repr, DecidableEq

/-- `INTERVAL 1 HOUR` of the `post_views` recency query, in milliseconds. -/
def SQL_VIEW_WINDOW : Int := 60 * 60 * 1000

/-- Outcome of `POST /api/posts/:id/views` (MySQL variant): a 200 carrying
`post[0]?.hits || 0`, or the catch-block 500 when a query throws.  The
handler has no 404 path: no constructor signals not-found. -/
inductive SqlViewResult where
  | ok (views : Int)
  | error
deriving Repr, DecidableEq

/-- `SELECT hits FROM posts WHERE id = ?` followed by `post[0]?.hits || 0`:
the first matching row's counter, or `0` when there is none (a stored `0`
is falsy and also reads as `0`). -/
def sqlViewCount (posts : List SqlPost) (postId : Int) : Int :=
  match posts.find? (fun p => p.id = postId) with
  | none => 0
  | some p => p.hits

/-- `POST /api/posts/:id/views` (MySQL variant, lines 529-566).  Order of
operations, as in the source: query `post_views` for rows of the
(post, user) pair newer than one hour — this runs unconditionally, before
any existence determination; if none, `INSERT INTO post_views` — the
foreign key on `post_id` makes this fail when no matching post exists,
landing in the catch block (500) with no row written — then
`UPDATE posts SET hits = hits + 1`; finally answer with the current
counter.  There is no not-found check anywhere in the handler. -/
def sqlRegisterView (s : SqlViewState) (postId : Int) (userId : String)
    (now : Int) : SqlViewResult × SqlViewState :=
  let recentViews := s.postViews.filter
    (fun r => r.postId = postId && r.userId = userId &&
      now - SQL_VIEW_WINDOW < r.createdAt)
  if recentViews.length = 0 then
    if (s.posts.find? (fun p => p.id = postId)).isNone then
      (.error, s)
    else
      let posts' := s.posts.map
        (fun p => if p.id = postId then { p with hits := p.hits + 1 } else p)
      let s' : SqlViewState :=
        { posts := posts', postViews := s.postViews ++ [⟨postId, userId, now⟩] }
      (.ok (sqlViewCount s'.posts postId), s')
  else
    (.ok (sqlViewCount s.posts postId), s)

/-! ### Association-list map lemmas -/

theorem lookup_setKey_self {α : Type} :
    ∀ (m : List (String × α)) (k : String) (v : α),
      lookup (setKey m k v) k = some v
  | [], k, v => by simp [setKey, lookup]
  | (k', v') :: rest, k, v => by
    by_cases h : k' = k
    · simp [setKey, lookup, h]
    · simp only [setKey, if_neg h, lookup, if_neg h]
      exact lookup_setKey_self rest k v

theorem lookup_setKey_ne {α : Type} :
    ∀ (m : List (String × α)) (k u : String) (v : α), u ≠ k →
      lookup (setKey m k v) u = lookup m u
  | [], k, u, v, h => by simp [setKey, lookup, Ne.symm h]
  | (k', v') :: rest, k, u, v, h => by
    by_cases hk : k' = k
    · subst hk
      simp [setKey, lookup, Ne.symm h]
    · simp only [setKey, if_neg hk, lookup]
      by_cases hu : k' = u
      · simp [hu]
      · simp only [if_neg hu]
        exact lookup_setKey_ne rest k u v h

theorem lookup_ensureKey {α : Type} (m : List (String × α)) (k u : String)
    (d : α) :
    (lookup (ensureKey m k d) u).getD d = (lookup m u).getD d := by
  unfold ensureKey
  by_cases hs : (lookup m k).isSome
  · simp [hs]
  · simp only [hs, if_false, Bool.false_eq_true]
    by_cases hu : u = k
    · subst hu
      rw [lookup_setKey_self]
      rcases h : lookup m u with _ | v
      · rfl
      · rw [h] at hs; simp at hs
    · rw [lookup_setKey_ne _ _ _ _ hu]

/-- The value the views endpoint reads as `lastViewTime` equals the recorded
pair timestamp `lastViewTs` of the original map: the `ensureKey` step only
ever inserts an empty inner map. -/
theorem lookup_userViews (vm : ViewMap) (userKey id : String) :
    lookup ((lookup (ensureKey vm userKey []) userKey).getD []) id =
      lastViewTs vm userKey id := by
  unfold ensureKey lastViewTs
  rcases h : lookup vm userKey with _ | uv
  · simp [h, lookup_setKey_self, lookup]
  · simp [h]

theorem lastViewTs_setKey_self (vm : ViewMap) (userKey id : String)
    (uv : UserViews) :
    lastViewTs (setKey vm userKey uv) userKey id = lookup uv id := by
  unfold lastViewTs
  rw [lookup_setKey_self]

/-! ### Post-list lemmas -/

theorem findPostById_id :
    ∀ (posts : List Post) (id : String) (post : Post),
      findPostById posts id = some post → post.id = id
  | [], _, _, h => by simp [findPostById] at h
  | p :: ps, id, post, h => by
    by_cases hp : p.id = id
    · simp only [findPostById, if_pos hp, Option.some.injEq] at h
      rw [← h]; exact hp
    · simp only [findPostById, if_neg hp] at h
      exact findPostById_id ps id post h

theorem findPostById_setPostById :
    ∀ (posts : List Post) (id : String) (p q : Post),
      findPostById posts id = some q → p.id = id →
      findPostById (setPostById posts id p) id = some p
  | [], id, p, q, hq, _ => by simp [findPostById] at hq
  | r :: rs, id, p, q, hq, hp => by
    by_cases h : r.id = id
    · simp [setPostById, findPostById, h, hp]
    · simp only [findPostById, if_neg h] at hq
      simp only [setPostById, if_neg h, findPostById, if_neg h]
      exact findPostById_setPostById rs id p q hq hp

theorem mem_setPostById :
    ∀ (posts : List Post) (id : String) (p q : Post),
      q ∈ setPostById posts id p → q ∈ posts ∨ q = p
  | [], _, _, _, h => by simp [setPostById] at h
  | r :: rs, id, p, q, h => by
    by_cases hr : r.id = id
    · simp only [setPostById, if_pos hr, List.mem_cons] at h
      rcases h with rfl | h
      · exact Or.inr rfl
      · exact Or.inl (List.mem_cons_of_mem _ h)
    · simp only [setPostById, if_neg hr, List.mem_cons] at h
      rcases h with rfl | h
      · exact Or.inl (List.mem_cons_self _ _)
      · rcases mem_setPostById rs id p q h with h' | h'
        · exact Or.inl (List.mem_cons_of_mem _ h')
        · exact Or.inr h'

theorem findPostById_mem :
    ∀ (posts : List Post) (id : String) (post : Post),
      findPostById posts id = some post → post ∈ posts
  | [], _, _, h => by simp [findPostById] at h
  | p :: ps, id, post, h => by
    by_cases hp : p.id = id
    · simp only [findPostById, if_pos hp, Option.some.injEq] at h
      exact h ▸ List.mem_cons_self _ _
    · simp only [findPostById, if_neg hp] at h
      exact List.mem_cons_of_mem _ (findPostById_mem ps id post h)

theorem length_filter_ne :
    ∀ (l : List String) (a : String), l.Nodup → a ∈ l →
      (l.filter (fun n => n ≠ a)).length + 1 = l.length
  | [], a, _, ha => absurd ha (List.not_mem_nil a)
  | b :: bs, a, hnd, ha => by
    rcases List.nodup_cons.mp hnd with ⟨hb, hbs⟩
    by_cases h : b = a
    · subst h
      have hfilter : bs.filter (fun n => n ≠ b) = bs :=
        List.filter_eq_self.mpr
          (fun x hx => decide_eq_true (fun e => hb (e ▸ hx)))
      rw [List.filter_cons, if_neg (by simp), hfilter]
      rfl
    · have ha' : a ∈ bs := by
        rcases List.mem_cons.mp ha with rfl | h'
        · exact absurd rfl h
        · exact h'
      have ih := length_filter_ne bs a hbs ha'
      rw [List.filter_cons, if_pos (decide_eq_true h)]
      simp only [List.length_cons]
      omega

/-! ### Likes endpoint: branch characterisations -/

theorem toggleLike_badRequest_eq (s : LikeState) (id : String) (now : Int) :
    toggleLike s id "" now = (.badRequest, s) := by
  simp [toggleLike]

theorem toggleLike_throttle_eq (s : LikeState) (id user : String) (now : Int)
    (hu : user ≠ "")
    (hthr : now - lastActionTs s.likesRateLimitMap user < LIKE_LIMIT) :
    toggleLike s id user now =
      (.throttled,
       { s with likesRateLimitMap := ensureKey s.likesRateLimitMap user 0 }) := by
  have hts : (lookup (ensureKey s.likesRateLimitMap user 0) user).getD 0 =
      lastActionTs s.likesRateLimitMap user :=
    lookup_ensureKey s.likesRateLimitMap user user 0
  simp only [toggleLike, if_neg hu, hts, if_pos hthr]

theorem toggleLike_notFound_eq (s : LikeState) (id user : String) (now : Int)
    (hu : user ≠ "")
    (hthr : ¬ (now - lastActionTs s.likesRateLimitMap user < LIKE_LIMIT))
    (hnone : findPostById s.posts id = none) :
    toggleLike s id user now =
      (.notFound,
       { s with likesRateLimitMap := ensureKey s.likesRateLimitMap user 0 }) := by
  have hts : (lookup (ensureKey s.likesRateLimitMap user 0) user).getD 0 =
      lastActionTs s.likesRateLimitMap user :=
    lookup_ensureKey s.likesRateLimitMap user user 0
  simp only [toggleLike, if_neg hu, hts, if_neg hthr, hnone]

theorem toggleLike_success_eq (s : LikeState) (id user : String) (now : Int)
    (post : Post) (hu : user ≠ "")
    (hthr : ¬ (now - lastActionTs s.likesRateLimitMap user < LIKE_LIMIT))
    (hpost : findPostById s.posts id = some post) :
    toggleLike s id user now =
      (.ok (togglePost post user).likes,
       { posts := setPostById s.posts id (togglePost post user),
         likesRateLimitMap :=
           setKey (ensureKey s.likesRateLimitMap user 0) user now }) := by
  have hts : (lookup (ensureKey s.likesRateLimitMap user 0) user).getD 0 =
      lastActionTs s.likesRateLimitMap user :=
    lookup_ensureKey s.likesRateLimitMap user user 0
  simp only [toggleLike, if_neg hu, hts, if_neg hthr, hpost]

theorem lastActionTs_ensureKey (lm : LikesMap) (user u : String) :
    lastActionTs (ensureKey lm user 0) u = lastActionTs lm u := by
  by_cases hu : u = user
  · subst hu
    exact lookup_ensureKey lm u u 0
  · unfold lastActionTs ensureKey
    by_cases hs : (lookup lm user).isSome
    · simp [hs]
    · simp only [hs, Bool.false_eq_true, if_false]
      rw [lookup_setKey_ne _ _ _ _ hu]

theorem togglePost_of_mem (post : Post) (user : String)
    (h : user ∈ post.usersLikes) :
    togglePost post user =
      { post with likes := post.likes - 1,
                  usersLikes := post.usersLikes.filter (fun n => n ≠ user) } := by
  unfold togglePost
  rw [if_pos (List.elem_eq_true_of_mem h)]

theorem togglePost_of_not_mem (post : Post) (user : String)
    (h : user ∉ post.usersLikes) :
    togglePost post user =
      { post with likes := post.likes + 1,
                  usersLikes := post.usersLikes ++ [user] } := by
  unfold togglePost
  rw [if_neg (fun hc => h (List.mem_of_elem_eq_true hc))]

/-- The like-ledger invariant of the specification: the stored `likes`
counter equals the size of the `usersLikes` set (the list holds no
duplicates, so its length is the set's size). -/
def likesInv (p : Post) : Prop :=
  p.likes = p.usersLikes.length ∧ p.usersLikes.Nodup

theorem likesInv_togglePost (post : Post) (user : String)
    (h : likesInv post) : likesInv (togglePost post user) := by
  obtain ⟨hlen, hnd⟩ := h
  by_cases hm : user ∈ post.usersLikes
  · rw [togglePost_of_mem post user hm]
    refine ⟨?_, hnd.filter _⟩
    have := length_filter_ne post.usersLikes user hnd hm
    simp only []
    omega
  · rw [togglePost_of_not_mem post user hm]
    refine ⟨?_, by simp [List.nodup_append, hnd, hm]⟩
    simp only [List.length_append, List.length_cons, List.length_nil]
    omega

/-! ### SQL variant lemmas -/

theorem rowMatch_iff (postId : Int) (userId : String) (r : LikeRow) :
    rowMatch postId userId r = true ↔ r = (postId, userId) := by
  cases r
  simp [rowMatch, Prod.ext_iff]

theorem filter_rowMatch_eq_nil (rows : List LikeRow) (postId : Int)
    (userId : String) :
    rows.filter (rowMatch postId userId) = [] ↔ (postId, userId) ∉ rows := by
  rw [List.filter_eq_nil_iff]
  constructor
  · intro h hmem
    exact h _ hmem (by simp [rowMatch_iff])
  · intro h r hr hm
    exact h ((rowMatch_iff postId userId r).mp hm ▸ hr)

theorem count_post_split :
    ∀ (rows : List LikeRow) (postId : Int) (userId : String),
      (rows.filter (fun r : LikeRow => r.1 = postId)).length =
        ((rows.filter (fun r => !rowMatch postId userId r)).filter
          (fun r : LikeRow => r.1 = postId)).length +
        (rows.filter (rowMatch postId userId)).length
  | [], _, _ => rfl
  | r :: rows, postId, userId => by
    have ih := count_post_split rows postId userId
    by_cases hm : rowMatch postId userId r = true
    · have hp : r.1 = postId := by
        rw [rowMatch_iff] at hm
        rw [hm]
      rw [List.filter_cons, if_pos (decide_eq_true hp), List.filter_cons,
        if_neg (by simp [hm]), List.filter_cons, if_pos hm]
      simp only [List.length_cons]
      omega
    · have hm' : (!rowMatch postId userId r) = true := by simp [hm]
      by_cases hp : r.1 = postId
      · rw [List.filter_cons, if_pos (decide_eq_true hp), List.filter_cons,
          if_pos hm', List.filter_cons, if_pos (decide_eq_true hp),
          List.filter_cons, if_neg (by simp [hm])]
        simp only [List.length_cons]
        omega
      · rw [List.filter_cons, if_neg (fun hc => hp (of_decide_eq_true hc)),
          List.filter_cons, if_pos hm', List.filter_cons,
          if_neg (fun hc => hp (of_decide_eq_true hc)), List.filter_cons,
          if_neg (by simp [hm])]
        exact ih

theorem length_filter_rowMatch_pos (rows : List LikeRow) (postId : Int)
    (userId : String) (h : (postId, userId) ∈ rows) :
    0 < (rows.filter (rowMatch postId userId)).length := by
  rcases hnil : rows.filter (rowMatch postId userId) with _ | ⟨r, rest⟩
  · exact absurd h ((filter_rowMatch_eq_nil rows postId userId).mp hnil)
  · simp

/-! ### Claim theorems -/

/-- Whenever the suppression guard evaluates to `false`, the views endpoint
applies the view: counter `(views || 0) + 1`, pair timestamp set to `now`. -/
theorem registerView_ok_of_guard
    (s : ViewState) (id userKey : String) (now : Int) (post : Post)
    (hpost : findPostById s.posts id = some post)
    (hguard : viewSuppressed (lastViewTs s.viewRateLimitMap userKey id) now =
      false) :
    (registerView s id userKey now).1 =
        .ok { post with views := some (post.views.getD 0 + 1) } ∧
    findPostById (registerView s id userKey now).2.posts id =
        some { post with views := some (post.views.getD 0 + 1) } ∧
    lastViewTs (registerView s id userKey now).2.viewRateLimitMap userKey id =
        some now := by
  have hid : post.id = id := findPostById_id _ _ _ hpost
  have hguard' : viewSuppressed
      (lookup ((lookup (ensureKey s.viewRateLimitMap userKey []) userKey).getD
        []) id) now = false := by
    rw [lookup_userViews]
    exact hguard
  simp only [registerView, hpost, hguard', Bool.false_eq_true, if_false]
  refine ⟨trivial, ?_, ?_⟩
  · exact findPostById_setPostById _ _ _ _ hpost hid
  · rw [lastViewTs_setKey_self, lookup_setKey_self]

/-- Claim C1: for every existing post and every (identityKey, resourceKey)
pair, `registerView` at time `now` with no recorded timestamp for the pair,
or with `now - lastTimestamp ≥ windowDuration`, increments the post's view
counter by exactly 1, sets the stored timestamp for the pair to `now`, and
returns the applied outcome carrying the new counter value. -/
theorem registerView_applies
    (s : ViewState) (id userKey : String) (now : Int) (post : Post)
    (hpost : findPostById s.posts id = some post)
    (hwin : lastViewTs s.viewRateLimitMap userKey id = none ∨
      ∃ t, lastViewTs s.viewRateLimitMap userKey id = some t ∧
        VIEW_LIMIT ≤ now - t) :
    (registerView s id userKey now).1 =
        .ok { post with views := some (post.views.getD 0 + 1) } ∧
    findPostById (registerView s id userKey now).2.posts id =
        some { post with views := some (post.views.getD 0 + 1) } ∧
    lastViewTs (registerView s id userKey now).2.viewRateLimitMap userKey id =
        some now := by
  refine registerView_ok_of_guard s id userKey now post hpost ?_
  rcases hwin with h | ⟨t, ht, hle⟩
  · rw [h]; rfl
  · rw [ht]
    have hnl : ¬ (now - t < VIEW_LIMIT) := not_lt.mpr hle
    simp [viewSuppressed, hnl]

/-- Concrete witness for `registerView_applies`: one post with 4 views and an
empty rate map; a view by "ua" at time 1000 is applied. -/
theorem registerView_applies_witness :
    (registerView ⟨[⟨"p1", 0, [], some 4⟩], []⟩ "p1" "ua" 1000).1 =
        .ok ⟨"p1", 0, [], some 5⟩ ∧
    findPostById (registerView ⟨[⟨"p1", 0, [], some 4⟩], []⟩ "p1" "ua"
        1000).2.posts "p1" = some ⟨"p1", 0, [], some 5⟩ ∧
    lastViewTs (registerView ⟨[⟨"p1", 0, [], some 4⟩], []⟩ "p1" "ua"
        1000).2.viewRateLimitMap "ua" "p1" = some 1000 :=
  registerView_applies ⟨[⟨"p1", 0, [], some 4⟩], []⟩ "p1" "ua" 1000
    ⟨"p1", 0, [], some 4⟩ (by decide) (Or.inl (by decide))

/-- Claim C8: for every pair with a recorded timestamp `t`, a `registerView`
call at exactly `now = t + windowDuration` is applied — the boundary is
inclusive of the window edge: equality counts as outside the suppression
window. -/
theorem registerView_window_boundary
    (s : ViewState) (id userKey : String) (t : Int) (post : Post)
    (hpost : findPostById s.posts id = some post)
    (ht : lastViewTs s.viewRateLimitMap userKey id = some t) :
    (registerView s id userKey (t + VIEW_LIMIT)).1 =
        .ok { post with views := some (post.views.getD 0 + 1) } ∧
    findPostById (registerView s id userKey (t + VIEW_LIMIT)).2.posts id =
        some { post with views := some (post.views.getD 0 + 1) } ∧
    lastViewTs (registerView s id userKey
        (t + VIEW_LIMIT)).2.viewRateLimitMap userKey id =
        some (t + VIEW_LIMIT) := by
  refine registerView_ok_of_guard s id userKey (t + VIEW_LIMIT) post hpost ?_
  rw [ht]
  have hnl : ¬ (t + VIEW_LIMIT - t < VIEW_LIMIT) := by omega
  simp [viewSuppressed, hnl]

/-- Concrete witness for `registerView_window_boundary`: a view recorded at
time 100 and a second view at exactly `100 + 300000` is applied. -/
theorem registerView_window_boundary_witness :
    (registerView ⟨[⟨"p1", 0, [], some 2⟩], [("ua", [("p1", 100)])]⟩ "p1" "ua"
        (100 + VIEW_LIMIT)).1 = .ok ⟨"p1", 0, [], some 3⟩ ∧
    findPostById (registerView ⟨[⟨"p1", 0, [], some 2⟩],
        [("ua", [("p1", 100)])]⟩ "p1" "ua" (100 + VIEW_LIMIT)).2.posts "p1" =
        some ⟨"p1", 0, [], some 3⟩ ∧
    lastViewTs (registerView ⟨[⟨"p1", 0, [], some 2⟩],
        [("ua", [("p1", 100)])]⟩ "p1" "ua"
        (100 + VIEW_LIMIT)).2.viewRateLimitMap "ua" "p1" =
        some (100 + VIEW_LIMIT) :=
  registerView_window_boundary ⟨[⟨"p1", 0, [], some 2⟩],
    [("ua", [("p1", 100)])]⟩ "p1" "ua" 100 ⟨"p1", 0, [], some 2⟩
    (by decide) (by decide)

/-- Counterexample to claim C5 as stated: a pair CAN carry the recorded
timestamp `0` (stored by an applied view at `now = 0`), and then a second
call inside the window is nevertheless applied, because the guard
`lastViewTime && ...` treats the stored `0` as absent (JS falsiness).
Here the recorded timestamp is `0`, `now - 0 = 1 < windowDuration`, yet the
view is applied: the counter moves from 5 to 6 and the stored timestamp is
refreshed to 1. -/
theorem registerView_zero_timestamp_counterexample :
    lastViewTs [("ua", [("p1", 0)])] "ua" "p1" = some 0 ∧
    (1 : Int) - 0 < VIEW_LIMIT ∧
    (registerView ⟨[⟨"p1", 0, [], some 5⟩], [("ua", [("p1", 0)])]⟩ "p1" "ua"
        1).1 = .ok ⟨"p1", 0, [], some 6⟩ ∧
    lastViewTs (registerView ⟨[⟨"p1", 0, [], some 5⟩], [("ua", [("p1", 0)])]⟩
        "p1" "ua" 1).2.viewRateLimitMap "ua" "p1" = some 1 := by
  decide

/-- Claim C5 (amended: the recorded timestamp must be nonzero — a stored `0`
is falsy and treated as no record): for every pair with a recorded nonzero
timestamp `t`, a `registerView` call at `now` with `now - t < windowDuration`
returns the duplicate outcome and leaves the entire state — the post list,
its view counter, and the stored timestamp — exactly unchanged (the
timestamp is not refreshed to `now`). -/
theorem registerView_suppressed
    (s : ViewState) (id userKey : String) (now t : Int) (post : Post)
    (hpost : findPostById s.posts id = some post)
    (ht : lastViewTs s.viewRateLimitMap userKey id = some t)
    (htz : t ≠ 0)
    (hlt : now - t < VIEW_LIMIT) :
    registerView s id userKey now = (.limited, s) := by
  have hsome : (lookup s.viewRateLimitMap userKey).isSome := by
    unfold lastViewTs at ht
    rcases h : lookup s.viewRateLimitMap userKey with _ | uv
    · rw [h] at ht
      exact absurd ht (by simp)
    · simp
  have hvm : ensureKey s.viewRateLimitMap userKey [] = s.viewRateLimitMap := by
    unfold ensureKey
    rw [if_pos hsome]
  have hguard : viewSuppressed
      (lookup ((lookup (ensureKey s.viewRateLimitMap userKey []) userKey).getD
        []) id) now = true := by
    rw [lookup_userViews, ht]
    simp [viewSuppressed, htz, hlt]
  simp only [registerView, hpost, hguard, if_true]
  rw [hvm]

/-- Concrete witness for `registerView_suppressed`: a view recorded at time
40, a second view at time 50 (inside the 5-minute window) is suppressed and
changes nothing. -/
theorem registerView_suppressed_witness :
    registerView ⟨[⟨"p1", 0, [], some 7⟩], [("ua", [("p1", 40)])]⟩ "p1" "ua"
        50 =
      (.limited, ⟨[⟨"p1", 0, [], some 7⟩], [("ua", [("p1", 40)])]⟩) :=
  registerView_suppressed ⟨[⟨"p1", 0, [], some 7⟩], [("ua", [("p1", 40)])]⟩
    "p1" "ua" 50 40 ⟨"p1", 0, [], some 7⟩ (by decide) (by decide) (by decide)
    (by decide)

/-- Counterexample to claim C7 as stated: in the MySQL
`POST /api/posts/:id/views` variant, a view of a nonexistent post never
signals not-found.  The `post_views` recency query runs unconditionally
first, and with no recent row the handler reaches the foreign-key
constrained INSERT, which fails and produces the catch-block 500 — the
result type of the handler has no not-found outcome at all.  Here the
posts table is empty, so post 7 does not exist, yet the outcome is the 500
error, not a not-found signal. -/
theorem sqlRegisterView_missing_post_counterexample :
    (([] : List SqlPost).find? (fun p => p.id = 7)).isNone = true ∧
    (sqlRegisterView ⟨[], []⟩ 7 "u" 1000).1 = .error ∧
    (sqlRegisterView ⟨[], []⟩ 7 "u" 1000).2 = ⟨[], []⟩ := by
  decide

/-- Claim C7 (amended): the existence-check-before-bookkeeping property
holds of the file-backed PATCH endpoint, the variant that owns the
rate-limit map: for a missing post, the result is not-found for every
content of the map, and the returned state — posts and map — is exactly
the input state.  The MySQL POST variant has no existence check: the
`post_views` store is queried first regardless, and a missing post never
yields not-found — with no recent row (the only possibility in a database
satisfying the `post_views.post_id` foreign key, which is the hypothesis
`hnorec`) the constrained INSERT fails and the handler returns its 500
error with the tables unchanged. -/
theorem registerView_notFound_variants
    (s : ViewState) (id userKey : String) (now : Int)
    (hnone : findPostById s.posts id = none)
    (q : SqlViewState) (postId : Int) (userId : String) (tq : Int)
    (hq : (q.posts.find? (fun p => p.id = postId)).isNone = true)
    (hnorec : q.postViews.filter
      (fun r => r.postId = postId && r.userId = userId &&
        tq - SQL_VIEW_WINDOW < r.createdAt) = []) :
    registerView s id userKey now = (.notFound, s) ∧
    sqlRegisterView q postId userId tq = (.error, q) := by
  constructor
  · simp [registerView, hnone]
  · simp [sqlRegisterView, hnorec, hq]

/-- Concrete witness for `registerView_notFound_variants`: the PATCH call on
a missing post id leaves a non-trivial rate-limit map untouched; the MySQL
call on a missing post id returns the 500 error with the tables unchanged. -/
theorem registerView_notFound_variants_witness :
    registerView ⟨[⟨"p2", 0, [], some 3⟩], [("ua", [("p2", 11)])]⟩ "p1" "ua"
        99 =
      (.notFound, ⟨[⟨"p2", 0, [], some 3⟩], [("ua", [("p2", 11)])]⟩) ∧
    sqlRegisterView ⟨[⟨5, 2⟩], [⟨5, "u", 100⟩]⟩ 7 "u" 1000 =
      (.error, ⟨[⟨5, 2⟩], [⟨5, "u", 100⟩]⟩) :=
  registerView_notFound_variants
    ⟨[⟨"p2", 0, [], some 3⟩], [("ua", [("p2", 11)])]⟩ "p1" "ua" 99
    (by decide) ⟨[⟨5, 2⟩], [⟨5, "u", 100⟩]⟩ 7 "u" 1000 (by decide)
    (by decide)

/-- Shape of the posts list after any `toggleLike` call: unchanged on the
reject paths, or the found post replaced by its toggled version. -/
theorem toggleLike_posts_cases (s : LikeState) (id user : String)
    (now : Int) :
    (toggleLike s id user now).2.posts = s.posts ∨
    ∃ post, findPostById s.posts id = some post ∧
      (toggleLike s id user now).2.posts =
        setPostById s.posts id (togglePost post user) := by
  by_cases hu : user = ""
  · subst hu
    rw [toggleLike_badRequest_eq]
    exact Or.inl rfl
  · by_cases hthr : now - lastActionTs s.likesRateLimitMap user < LIKE_LIMIT
    · rw [toggleLike_throttle_eq s id user now hu hthr]
      exact Or.inl rfl
    · rcases hpost : findPostById s.posts id with _ | post
      · rw [toggleLike_notFound_eq s id user now hu hthr hpost]
        exact Or.inl rfl
      · rw [toggleLike_success_eq s id user now post hu hthr hpost]
        exact Or.inr ⟨post, rfl, rfl⟩

/-- Claim C6: a `toggleLike` call at `now` with
`now - lastActionTimestamp(identityKey) < minInterval` (and a present
identity, which is checked first) is rejected as throttled, mutates no
post, and leaves every identity's effective last-action timestamp
unchanged — the timestamp is recorded only by a successful toggle. -/
theorem toggleLike_throttled_frame
    (s : LikeState) (id user : String) (now : Int)
    (hu : user ≠ "")
    (hthr : now - lastActionTs s.likesRateLimitMap user < LIKE_LIMIT) :
    (toggleLike s id user now).1 = .throttled ∧
    (toggleLike s id user now).2.posts = s.posts ∧
    lastActionTs (toggleLike s id user now).2.likesRateLimitMap =
      lastActionTs s.likesRateLimitMap := by
  rw [toggleLike_throttle_eq s id user now hu hthr]
  exact ⟨rfl, rfl, funext fun u => lastActionTs_ensureKey _ _ _⟩

/-- Concrete witness for `toggleLike_throttled_frame`: "bob" toggled at 100,
the next attempt at 200 is throttled and changes nothing observable. -/
theorem toggleLike_throttled_frame_witness :
    (toggleLike ⟨[⟨"p1", 1, ["a"], none⟩], [("bob", 100)]⟩ "p1" "bob"
        200).1 = .throttled ∧
    (toggleLike ⟨[⟨"p1", 1, ["a"], none⟩], [("bob", 100)]⟩ "p1" "bob"
        200).2.posts = [⟨"p1", 1, ["a"], none⟩] ∧
    lastActionTs (toggleLike ⟨[⟨"p1", 1, ["a"], none⟩], [("bob", 100)]⟩ "p1"
        "bob" 200).2.likesRateLimitMap = lastActionTs [("bob", 100)] :=
  toggleLike_throttled_frame ⟨[⟨"p1", 1, ["a"], none⟩], [("bob", 100)]⟩ "p1"
    "bob" 200 (by decide) (by decide)

/-- Claim C10: for an identity with no prior `toggleLike` record, the first
call at time `now` is throttled whenever `now < minInterval`: the absent
last-action timestamp is initialised to `0` and compared as
`now - 0 < minInterval`, so an absent record is not unconditionally
permitted. -/
theorem toggleLike_first_call_throttled
    (s : LikeState) (id user : String) (now : Int)
    (hu : user ≠ "")
    (habs : lookup s.likesRateLimitMap user = none)
    (hnow : now < LIKE_LIMIT) :
    (toggleLike s id user now).1 = .throttled := by
  have h0 : lastActionTs s.likesRateLimitMap user = 0 := by
    unfold lastActionTs
    rw [habs]
    rfl
  have hthr : now - lastActionTs s.likesRateLimitMap user < LIKE_LIMIT := by
    rw [h0]
    omega
  rw [toggleLike_throttle_eq s id user now hu hthr]

/-- Concrete witness for `toggleLike_first_call_throttled`: a fresh identity
"bob" calling at `now = 59999 < 60000` is throttled on its very first call. -/
theorem toggleLike_first_call_throttled_witness :
    (toggleLike ⟨[⟨"p1", 0, [], none⟩], []⟩ "p1" "bob" 59999).1 =
      .throttled :=
  toggleLike_first_call_throttled ⟨[⟨"p1", 0, [], none⟩], []⟩ "p1" "bob"
    59999 (by decide) (by decide) (by decide)

/-- Counterexample to claim C4 as stated: in the source the `!post` check
runs only after the throttle check, so a call on a nonexistent post by a
throttled identity yields the throttled rejection, not the not-found one.
Here "alice" last toggled at 100000 and calls again at 159999 on a post id
that matches no post: the result is throttled. -/
theorem toggleLike_throttle_shadows_notFound :
    findPostById ([] : List Post) "p1" = none ∧
    (toggleLike ⟨[], [("alice", 100000)]⟩ "p1" "alice" 159999).1 =
      .throttled := by
  decide

/-- Claim C4 (amended): only the BadRequest check precedes the throttle
check — a call with a missing identity always yields the bad-request
rejection and never a throttled one; the NotFound check runs after the
throttle check, so a nonexistent post yields the not-found rejection
exactly when the caller is not throttled. -/
theorem toggleLike_check_order (s : LikeState) (id user : String)
    (now : Int) :
    (user = "" → toggleLike s id user now = (.badRequest, s)) ∧
    (user ≠ "" →
      ¬ (now - lastActionTs s.likesRateLimitMap user < LIKE_LIMIT) →
      findPostById s.posts id = none →
      (toggleLike s id user now).1 = .notFound) := by
  constructor
  · intro h
    subst h
    exact toggleLike_badRequest_eq s id now
  · intro hu hthr hnone
    rw [toggleLike_notFound_eq s id user now hu hthr hnone]

/-- Concrete witness for `toggleLike_check_order`: a missing identity gets
bad-request; a fresh non-throttled caller on a missing post gets not-found. -/
theorem toggleLike_check_order_witness :
    toggleLike ⟨[], []⟩ "p1" "" 5 = (.badRequest, ⟨[], []⟩) ∧
    (toggleLike ⟨[], []⟩ "p1" "bob" 70000).1 = .notFound :=
  ⟨(toggleLike_check_order ⟨[], []⟩ "p1" "" 5).1 rfl,
   (toggleLike_check_order ⟨[], []⟩ "p1" "bob" 70000).2 (by decide)
     (by decide) (by decide)⟩

/-- Claim C3: if every stored post satisfies the like-ledger invariant
(`likes` equals the size of the duplicate-free `usersLikes` set), then after
any `toggleLike` call — toggle on, toggle off, throttled, bad-request, or
not-found — every stored post still satisfies it, and every `likes` counter
is non-negative. -/
theorem toggleLike_preserves_likesInv
    (s : LikeState) (id user : String) (now : Int)
    (hinv : ∀ p ∈ s.posts, likesInv p) :
    ∀ p ∈ (toggleLike s id user now).2.posts, likesInv p ∧ 0 ≤ p.likes := by
  intro p hp
  have key : likesInv p := by
    rcases toggleLike_posts_cases s id user now with h | ⟨post, hpost, h⟩
    · rw [h] at hp
      exact hinv p hp
    · rw [h] at hp
      rcases mem_setPostById _ _ _ _ hp with h' | rfl
      · exact hinv p h'
      · exact likesInv_togglePost post user
          (hinv post (findPostById_mem _ _ _ hpost))
  refine ⟨key, ?_⟩
  have := key.1
  omega

/-- Concrete witness for `toggleLike_preserves_likesInv`: "bob" toggles on
a post liked by "a"; the updated post keeps `likes = |usersLikes|` and a
non-negative counter. -/
theorem toggleLike_preserves_likesInv_witness :
    ((2 : Int) = ((["a", "bob"] : List String).length : Int) ∧
      (["a", "bob"] : List String).Nodup) ∧
    (0 : Int) ≤ 2 :=
  toggleLike_preserves_likesInv ⟨[⟨"p1", 1, ["a"], none⟩], []⟩ "p1" "bob"
    70000
    (fun p hp => by
      obtain rfl := List.mem_singleton.mp hp
      exact ⟨by decide, by decide⟩)
    ⟨"p1", 2, ["a", "bob"], none⟩ (by decide)

/-- Claim C2: a non-throttled `toggleLike` on an existing post removes the
identity from `usersLikes` and decrements `likes` by exactly 1 when it is a
member, adds it and increments `likes` by exactly 1 when it is not, and the
returned like count (and, in the MySQL `POST .../like` variant, the
returned `isLiked` flag and `COUNT(*)` like count) reflect the post-toggle
state.  The uniqueness hypothesis on `rows` is the table's
`UNIQUE KEY (post_id, userId)` constraint. -/
theorem toggleLike_toggles
    (s : LikeState) (id user : String) (now : Int) (post : Post)
    (hpost : findPostById s.posts id = some post)
    (hu : user ≠ "")
    (hthr : ¬ (now - lastActionTs s.likesRateLimitMap user < LIKE_LIMIT))
    (rows : List LikeRow) (postId : Int) (userId : String)
    (huniq : (rows.filter (rowMatch postId userId)).length ≤ 1) :
    ((user ∈ post.usersLikes →
        (toggleLike s id user now).1 = .ok (post.likes - 1) ∧
        findPostById (toggleLike s id user now).2.posts id =
          some { post with likes := post.likes - 1,
                           usersLikes :=
                             post.usersLikes.filter (fun n => n ≠ user) } ∧
        user ∉ (togglePost post user).usersLikes) ∧
     (user ∉ post.usersLikes →
        (toggleLike s id user now).1 = .ok (post.likes + 1) ∧
        findPostById (toggleLike s id user now).2.posts id =
          some { post with likes := post.likes + 1,
                           usersLikes := post.usersLikes ++ [user] } ∧
        user ∈ (togglePost post user).usersLikes)) ∧
    ((((postId, userId) ∈ rows →
        (sqlToggleLike rows postId userId).1.1 = false ∧
        (postId, userId) ∉ (sqlToggleLike rows postId userId).2 ∧
        (sqlToggleLike rows postId userId).1.2 + 1 =
          (rows.filter (fun r : LikeRow => r.1 = postId)).length) ∧
      ((postId, userId) ∉ rows →
        (sqlToggleLike rows postId userId).1.1 = true ∧
        (postId, userId) ∈ (sqlToggleLike rows postId userId).2 ∧
        (sqlToggleLike rows postId userId).1.2 =
          (rows.filter (fun r : LikeRow => r.1 = postId)).length + 1)) ∧
     (sqlToggleLike rows postId userId).1.2 =
       ((sqlToggleLike rows postId userId).2.filter
         (fun r : LikeRow => r.1 = postId)).length) := by
  have hid : post.id = id := findPostById_id _ _ _ hpost
  rw [toggleLike_success_eq s id user now post hu hthr hpost]
  refine ⟨⟨?_, ?_⟩, ⟨?_, ?_⟩, rfl⟩
  · intro hm
    rw [togglePost_of_mem post user hm]
    refine ⟨rfl, findPostById_setPostById _ _ _ _ hpost hid, ?_⟩
    simp
  · intro hm
    rw [togglePost_of_not_mem post user hm]
    refine ⟨rfl, findPostById_setPostById _ _ _ _ hpost hid, ?_⟩
    simp
  · intro hmem
    have hne : rows.filter (rowMatch postId userId) ≠ [] :=
      fun hnil => (filter_rowMatch_eq_nil rows postId userId).mp hnil hmem
    have hE : (rows.filter (rowMatch postId userId)).isEmpty = false := by
      rcases h : rows.filter (rowMatch postId userId) with _ | _
      · exact absurd h hne
      · rfl
    have hone : (rows.filter (rowMatch postId userId)).length = 1 := by
      have := length_filter_rowMatch_pos rows postId userId hmem
      omega
    refine ⟨?_, ?_, ?_⟩
    · simp only [sqlToggleLike, hE]
    · simp only [sqlToggleLike, hE, Bool.false_eq_true, if_false]
      simp [List.mem_filter, rowMatch_iff]
    · simp only [sqlToggleLike, hE, Bool.false_eq_true, if_false]
      have := count_post_split rows postId userId
      omega
  · intro hmem
    have hE : (rows.filter (rowMatch postId userId)).isEmpty = true := by
      rw [(filter_rowMatch_eq_nil rows postId userId).mpr hmem]
      rfl
    refine ⟨?_, ?_, ?_⟩
    · simp only [sqlToggleLike, hE]
    · simp only [sqlToggleLike, hE, if_true]
      simp
    · simp only [sqlToggleLike, hE, if_true]
      rw [List.filter_append]
      simp

/-- Concrete witness for `toggleLike_toggles`: "bob" (not yet a liker)
toggles on, moving `likes` from 1 to 2; in the SQL variant, user "a"
(already a liker of post 1) toggles off, moving the count from 1 to 0. -/
theorem toggleLike_toggles_witness :
    (toggleLike ⟨[⟨"p1", 1, ["a"], none⟩], []⟩ "p1" "bob" 70000).1 =
      .ok 2 ∧
    (sqlToggleLike [(1, "a")] 1 "a").1.1 = false ∧
    (sqlToggleLike [(1, "a")] 1 "a").1.2 + 1 = 1 :=
  have h := toggleLike_toggles ⟨[⟨"p1", 1, ["a"], none⟩], []⟩ "p1" "bob"
    70000 ⟨"p1", 1, ["a"], none⟩ (by decide) (by decide) (by decide)
    [(1, "a")] 1 "a" (by decide)
  ⟨(h.1.2 (by decide)).1, (h.2.1.1 (by decide)).1, (h.2.1.1 (by decide)).2.2⟩

end Community
